import Mathlib

/-!
# Healthy-Cities (Mumbai Pulse): derived metrics and anomaly engine, verified

Shallow embedding of the numeric core of the repository:

* `src/mumbai_pulse_data/scripts/process_aqi_estimation.py`
  (`estimate_pm25_from_aod`, `calculate_aqi_from_pm25`)
* `src/mumbai_pulse_data/scripts/process_flood_risk.py`
  (`calculate_flood_risk_score`, `get_flood_risk_category`)
* `src/mumbai_pulse_data/scripts/process_heat_index.py`
  (`calculate_heat_index` plus the Celsius/Fahrenheit conversion done by
  the processing pipeline)
* `src/backend/data/data_processor.py` (`DataProcessor._clean_nasa_data`)
* `src/backend/models/model_loader.py`
  (`ModelLoader._prepare_features`, `detect_anomalies`,
  `detect_comprehensive_anomalies`)
* `src/mumbai_pulse_data/scripts/ml_model_anomaly_detection.py`
  (`AnomalyDetectionSystem.train_models`, `evaluate_models`)

Python floats are modelled as exact rationals (`ℚ`); where IEEE special
values matter (the NASA-data sanitizer) values are an explicit inductive
type with `nan`/`inf`/`-inf` constructors and Python/NumPy comparison
semantics.  Python exceptions are modelled with `Except`.
-/

namespace HealthyCities

/-! ## Derived metrics: AQI estimation
    (`process_aqi_estimation.py`) -/

/-- `np.clip(x, lo, hi)` for scalars: `min(hi, max(lo, x))`. -/
def np_clip (x lo hi : ℚ) : ℚ := min hi (max lo x)

/-- `estimate_pm25_from_aod(aod_550nm, humidity=80)` from
`process_aqi_estimation.py`: `aod * 25 * (1 + (humidity - 50) * 0.01)`,
clipped to `[0, 500]`. -/
def estimate_pm25_from_aod (aod_550nm : ℚ) (humidity : ℚ) : ℚ :=
  let base_scaling : ℚ := 25
  let humidity_factor : ℚ := 1 + (humidity - 50) * 0.01
  let pm25_estimate : ℚ := aod_550nm * base_scaling * humidity_factor
  np_clip pm25_estimate 0 500

/-- One Indian-AQI PM2.5 breakpoint row `(pm_low, pm_high, aqi_low, aqi_high)`. -/
structure Band where
  pm_low : ℚ
  pm_high : ℚ
  aqi_low : ℚ
  aqi_high : ℚ
deriving DecidableEq, Repr

/-- The Indian AQI breakpoint table of `calculate_aqi_from_pm25`. -/
def breakpoints : List Band :=
  [⟨0, 30, 0, 50⟩, ⟨31, 60, 51, 100⟩, ⟨61, 90, 101, 200⟩,
   ⟨91, 120, 201, 300⟩, ⟨121, 250, 301, 400⟩, ⟨251, 500, 401, 500⟩]

/-- The linear interpolation applied inside the matching band:
`aqi_low + (aqi_high - aqi_low) * (pm25 - pm_low) / (pm_high - pm_low)`. -/
def band_interp (b : Band) (pm25 : ℚ) : ℚ :=
  b.aqi_low + (b.aqi_high - b.aqi_low) * (pm25 - b.pm_low) / (b.pm_high - b.pm_low)

/-- The `for`-loop of `calculate_aqi_from_pm25`: first band with
`pm_low <= pm25 <= pm_high` wins; falling off the list returns 500. -/
def aqi_loop (pm25 : ℚ) : List Band → ℚ
  | [] => 500
  | b :: rest =>
    if b.pm_low ≤ pm25 ∧ pm25 ≤ b.pm_high then band_interp b pm25
    else aqi_loop pm25 rest

/-- `calculate_aqi_from_pm25(pm25)` from `process_aqi_estimation.py`. -/
def calculate_aqi_from_pm25 (pm25 : ℚ) : ℚ := aqi_loop pm25 breakpoints

/-! ## Derived metrics: flood risk
    (`process_flood_risk.py`) -/

/-- `calculate_flood_risk_score(soil_moisture, precipitation=None, ndwi=None)`:
threshold components for soil moisture (40), precipitation (30, default 15
when absent) and NDWI (30, default 15 when absent), summed and capped at
100. -/
def calculate_flood_risk_score (soil_moisture : ℚ)
    (precipitation : Option ℚ) (ndwi : Option ℚ) : ℚ :=
  let soil_component : ℚ :=
    if soil_moisture > 0.4 then 40
    else if soil_moisture > 0.3 then 25
    else if soil_moisture > 0.2 then 10
    else 0
  let precip_component : ℚ :=
    match precipitation with
    | some p => if p > 50 then 30 else if p > 25 then 20 else if p > 10 then 10 else 0
    | none => 15
  let ndwi_component : ℚ :=
    match ndwi with
    | some w => if w > 0.3 then 30 else if w > 0.1 then 20 else if w > -0.1 then 10 else 0
    | none => 15
  min (soil_component + precip_component + ndwi_component) 100

/-- `get_flood_risk_category(risk_score)` (category string only; the colour
returned alongside it in the source is irrelevant to the claims). -/
def get_flood_risk_category (risk_score : ℚ) : String :=
  if risk_score < 20 then "Low Risk"
  else if risk_score < 40 then "Moderate Risk"
  else if risk_score < 60 then "High Risk"
  else if risk_score < 80 then "Very High Risk"
  else "Extreme Risk"

/-! ## Derived metrics: heat index
    (`process_heat_index.py`) -/

/-- Celsius → Fahrenheit, as in `process_heat_index.py`:
`(T2M * 9/5) + 32`. -/
def c_to_f (temp_c : ℚ) : ℚ := temp_c * 9 / 5 + 32

/-- Fahrenheit → Celsius, as in `process_heat_index.py`:
`(heat_index_f - 32) * 5/9`. -/
def f_to_c (temp_f : ℚ) : ℚ := (temp_f - 32) * 5 / 9

/-- The `simple_hi` expression of `calculate_heat_index`:
`0.5 * (temp_f + 61.0 + ((temp_f - 68.0) * 1.2) + (humidity * 0.094))`. -/
def simple_hi (temp_f humidity : ℚ) : ℚ :=
  0.5 * (temp_f + 61.0 + ((temp_f - 68.0) * 1.2) + (humidity * 0.094))

/-- The Rothfusz polynomial branch of `calculate_heat_index`, with the
source's constants `c1..c9` inlined. -/
def rothfusz_hi (temp_f humidity : ℚ) : ℚ :=
  (-42.379) + (2.04901523 * temp_f) + (10.14333127 * humidity)
    + ((-0.22475541) * temp_f * humidity)
    + ((-6.83783e-3) * temp_f ^ 2) + ((-5.481717e-2) * humidity ^ 2)
    + (1.22874e-3 * temp_f ^ 2 * humidity) + (8.5282e-4 * temp_f * humidity ^ 2)
    + ((-1.99e-6) * temp_f ^ 2 * humidity ^ 2)

/-- `calculate_heat_index(temp_f, humidity)` from `process_heat_index.py`:
Fahrenheit in, Fahrenheit out; the simple formula when `simple_hi < 80`,
the Rothfusz equation otherwise. -/
def calculate_heat_index (temp_f humidity : ℚ) : ℚ :=
  if simple_hi temp_f humidity < 80 then simple_hi temp_f humidity
  else rothfusz_hi temp_f humidity

/-- The pipeline composition of `process_heat_index.process_heat_index`:
convert `T2M` (°C) to Fahrenheit, run `calculate_heat_index`, convert the
result back to Celsius (`heat_index_c`). -/
def heat_index_c (temp_c humidity : ℚ) : ℚ :=
  f_to_c (calculate_heat_index (c_to_f temp_c) humidity)

/-! ## Data sanitizer
    (`DataProcessor._clean_nasa_data` in `src/backend/data/data_processor.py`)

A Python float value is modelled with explicit IEEE special values, so
that the source's test
`value == -999 or value == -9999 or value < -900 or pd.isna(value)`
can be reproduced exactly: `pd.isna` is `True` only on NaN (not on
infinities), and every comparison involving NaN is `False`. -/

/-- A numeric field value: a finite rational, NaN, `+inf` or `-inf`. -/
inductive Val where
  | num (q : ℚ)
  | nan
  | inf
  | ninf
deriving DecidableEq, Repr

/-- IEEE-754 `<` as Python evaluates it: NaN compares false to
everything, `-inf` is below every non-NaN value, `+inf` above. -/
def Val.lt : Val → Val → Bool
  | .num a, .num b => a < b
  | .nan, _ => false
  | _, .nan => false
  | .ninf, .ninf => false
  | .ninf, _ => true
  | _, .ninf => false
  | .inf, _ => false
  | .num _, .inf => true

/-- IEEE-754 `==` against a finite literal (NaN and infinities are never
equal to a finite number). -/
def Val.eqNum : Val → ℚ → Bool
  | .num a, b => a == b
  | _, _ => false

/-- `pd.isna` on a scalar float: true exactly on NaN (pandas does not
treat infinities as NA by default). -/
def pd_isna : Val → Bool
  | .nan => true
  | _ => false

/-- The missing-data test inside `_clean_nasa_data`'s loop:
`value == -999 or value == -9999 or value < -900 or pd.isna(value)`. -/
def is_nasa_missing (v : Val) : Bool :=
  v.eqNum (-999) || v.eqNum (-9999) || v.lt (.num (-900)) || pd_isna v

/-- The `replacements` table of `_clean_nasa_data` (realistic Mumbai
defaults), in source order. -/
def replacements : List (String × ℚ) :=
  [("T2M", 28.5), ("RH2M", 75.0), ("heat_index_c", 30.2), ("heat_index_f", 86.4),
   ("aqi_estimated", 45.0), ("pm25_estimated", 22.0), ("no2_column_density", 0.35),
   ("aod_550nm", 0.48), ("soil_moisture", 0.25), ("precipitation_mm", 1.2),
   ("ndwi", 0.18), ("flood_risk_score", 25.0), ("radiance_nw_cm2_sr", 28.5),
   ("economic_activity_index", 65.0), ("urban_environmental_load", 520.0),
   ("environmental_stress_index", 18.5), ("air_quality_composite", 0.28),
   ("water_stress_index", 2.3), ("WS10M", 2.5), ("PRECTOTCORR", 1.2),
   ("T2M_MAX", 32.0), ("T2M_MIN", 25.0)]

/-- The per-field default `_clean_nasa_data` substitutes: the table entry
when the key is documented, `0.0` otherwise. -/
def replacement_for (key : String) : ℚ :=
  match replacements.find? (fun p => p.1 == key) with
  | some p => p.2
  | none => 0.0

/-- The body of `_clean_nasa_data`'s loop for one numeric field: replace
the value by the per-field default when the missing-data test fires,
leave it unchanged otherwise. -/
def clean_value (key : String) (v : Val) : Val :=
  if is_nasa_missing v then .num (replacement_for key) else v

/-- `DataProcessor._clean_nasa_data`, restricted to the numeric fields of
the record (the source loop skips non-numeric values entirely). -/
def clean_nasa_data (data : List (String × Val)) : List (String × Val) :=
  data.map (fun p => (p.1, clean_value p.1 p.2))

/-! ## Anomaly inference
    (`ModelLoader` in `src/backend/models/model_loader.py`) -/

/-- `data.get(feature, 0)` on a dict modelled as an association list. -/
def dict_get (data : List (String × ℚ)) (key : String) (dflt : ℚ) : ℚ :=
  match data.find? (fun p => p.1 == key) with
  | some p => p.2
  | none => dflt

/-- `feature in data` on the dict. -/
def dict_has (data : List (String × ℚ)) (key : String) : Bool :=
  (data.find? (fun p => p.1 == key)).isSome

/-- `ModelLoader._prepare_features` (numeric path): for each schema
feature name, `data.get(feature, 0)` — a feature absent from the input is
silently filled with 0.  (The `label_encoders` branch only applies to
categorical features, of which the anomaly schema has none.) -/
def prepare_features (feature_names : List String)
    (data : List (String × ℚ)) : List ℚ :=
  feature_names.map (fun feature => dict_get data feature 0)

/-- The persisted anomaly detector as `detect_anomalies` sees it:
`predict` returns -1 for anomaly / 1 for normal on the scaled row, and
`decision_function` is present only when the underlying estimator
exposes one (`hasattr`). -/
structure Detector where
  predict : List ℚ → Int
  decision_function : Option (List ℚ → ℚ)

/-- `AnomalyResult` as returned by `detect_anomalies` (the timestamp
field is dropped). -/
structure AnomalyResult where
  is_anomaly : Bool
  anomaly_score : ℚ
  severity : String
deriving DecidableEq, Repr

/-- The severity expression used by both `detect_anomalies` and
`detect_comprehensive_anomalies`:
`'High' if s > 0.7 else 'Medium' if s > 0.3 else 'Low'`. -/
def severity_bucket (s : ℚ) : String :=
  if s > 0.7 then "High" else if s > 0.3 then "Medium" else "Low"

/-- `ModelLoader.detect_anomalies(data)`: prepare the schema-ordered
feature vector, scale it, predict, and score with
`abs(decision_function(...))` when the detector has one, else the
constant `0.5`.  No branch raises: a mis-sized input dict is zero-filled
by `_prepare_features`, never rejected. -/
def detect_anomalies (feature_names : List String) (scaler : List ℚ → List ℚ)
    (det : Detector) (data : List (String × ℚ)) : AnomalyResult :=
  let features := prepare_features feature_names data
  let scaled_features := scaler features
  let anomaly_prediction := det.predict scaled_features
  let anomaly_score : ℚ :=
    match det.decision_function with
    | some f => |f scaled_features|
    | none => 0.5
  { is_anomaly := anomaly_prediction == -1
    anomaly_score := anomaly_score
    severity := severity_bucket anomaly_score }

/-- The fixed watch list in `detect_comprehensive_anomalies`:
`['aqi_estimated', 'flood_risk_score', 'T2M', 'RH2M']`. -/
def watch_list : List String :=
  ["aqi_estimated", "flood_risk_score", "T2M", "RH2M"]

/-- Batch result of `detect_comprehensive_anomalies` (the summary string
is dropped). -/
structure BatchResult where
  anomalies : List AnomalyResult
  overall_score : ℚ
  affected_parameters : List String
  severity : String

/-- Arithmetic mean; in `ℚ` the empty case gives `0/0 = 0`, which
coincides with how the source's `np.nan` mean then buckets to `"Low"`. -/
def mean (xs : List ℚ) : ℚ := xs.sum / xs.length

/-- `ModelLoader.detect_comprehensive_anomalies(data_list)`: run
`detect_anomalies` on every row; `overall_score` is the mean score (0.0
on an empty batch); `affected_parameters` collects the watch-listed keys
present in some anomalous row; `severity` buckets the mean score. -/
def detect_comprehensive_anomalies (feature_names : List String)
    (scaler : List ℚ → List ℚ) (det : Detector)
    (data_list : List (List (String × ℚ))) : BatchResult :=
  let anomalies := data_list.map (detect_anomalies feature_names scaler det)
  let overall_scores := anomalies.map (·.anomaly_score)
  let affected := watch_list.filter (fun param =>
    (data_list.zip anomalies).any (fun p => p.2.is_anomaly && dict_has p.1 param))
  { anomalies := anomalies
    overall_score := if overall_scores.isEmpty then 0 else mean overall_scores
    affected_parameters := affected
    severity := severity_bucket (mean overall_scores) }

/-! ## Ensemble training and model selection
    (`AnomalyDetectionSystem` in
    `src/mumbai_pulse_data/scripts/ml_model_anomaly_detection.py`) -/

/-- `AnomalyDetectionSystem.train_models`, abstracted over the outcome of
each of the three `fit` calls (a Python `fit` either returns a fitted
estimator or raises, modelled with `Except`).  The source body runs the
three fits sequentially with no `try`/`except`, so the first exception
propagates and aborts the whole method. -/
def train_models {α β γ : Type} (fit_iso : Except String α)
    (fit_svm : Except String β) (fit_db : Except String γ) :
    Except String (α × β × γ) :=
  match fit_iso with
  | .error e => .error e
  | .ok iso_forest =>
    match fit_svm with
    | .error e => .error e
    | .ok oc_svm =>
      match fit_db with
      | .error e => .error e
      | .ok dbscan => .ok (iso_forest, oc_svm, dbscan)

/-- One step of Python's `max(..., key=...)`: the running maximum is
replaced only when the candidate's key is strictly greater, so the first
maximal element of the iteration wins ties. -/
def py_max_step (best cand : String × ℚ) : String × ℚ :=
  if cand.2 > best.2 then cand else best

/-- `evaluate_models`'s selection
`max(results.keys(), key=lambda x: results[x]['f1_score'])`, where the
`results` dict iterates in insertion order
`isolation_forest, one_class_svm, dbscan` (the order `train_models`
inserted the models). -/
def select_best_model (f1_iso f1_svm f1_db : ℚ) : String × ℚ :=
  py_max_step (py_max_step ("isolation_forest", f1_iso) ("one_class_svm", f1_svm))
    ("dbscan", f1_db)

/-! ## Theorems -/

/-- When no band of the list contains pm25, the loop of
`calculate_aqi_from_pm25` falls through and returns 500. -/
lemma aqi_loop_no_match (pm25 : ℚ) :
    ∀ l : List Band, (∀ b ∈ l, ¬(b.pm_low ≤ pm25 ∧ pm25 ≤ b.pm_high)) →
      aqi_loop pm25 l = 500 := by
  intro l
  induction l with
  | nil => intro _; rfl
  | cons b rest ih =>
    intro h
    simp only [aqi_loop]
    rw [if_neg (h b (List.mem_cons_self b rest))]
    exact ih fun x hx => h x (List.mem_cons_of_mem b hx)

/-- C3: for every pm25 lying in a breakpoint band of the table,
`calculate_aqi_from_pm25` returns the band's linear interpolation
`aqi_low + (aqi_high - aqi_low)·(pm25 - pm_low)/(pm_high - pm_low)`; in
particular it returns `51 + 49·(45-31)/29 = 2165/29 ≈ 74.66` at
`pm25 = 45`, and `500` for every pm25 above 500. -/
theorem aqi_piecewise_linear :
    (∀ pm25 : ℚ, ∀ b ∈ breakpoints, b.pm_low ≤ pm25 → pm25 ≤ b.pm_high →
      calculate_aqi_from_pm25 pm25 = band_interp b pm25) ∧
    calculate_aqi_from_pm25 45 = 2165 / 29 ∧
    (∀ pm25 : ℚ, 500 < pm25 → calculate_aqi_from_pm25 pm25 = 500) := by
  refine ⟨?_, by norm_num [calculate_aqi_from_pm25, breakpoints, aqi_loop, band_interp], ?_⟩
  · intro pm25 b hb hlo hhi
    fin_cases hb
    · simp only [calculate_aqi_from_pm25, breakpoints, aqi_loop, band_interp] at hlo hhi ⊢
      rw [if_pos (And.intro hlo hhi)]
    · simp only [calculate_aqi_from_pm25, breakpoints, aqi_loop, band_interp] at hlo hhi ⊢
      rw [if_neg (by rintro ⟨u, v⟩; linarith), if_pos (And.intro hlo hhi)]
    · simp only [calculate_aqi_from_pm25, breakpoints, aqi_loop, band_interp] at hlo hhi ⊢
      rw [if_neg (by rintro ⟨u, v⟩; linarith), if_neg (by rintro ⟨u, v⟩; linarith),
        if_pos (And.intro hlo hhi)]
    · simp only [calculate_aqi_from_pm25, breakpoints, aqi_loop, band_interp] at hlo hhi ⊢
      rw [if_neg (by rintro ⟨u, v⟩; linarith), if_neg (by rintro ⟨u, v⟩; linarith),
        if_neg (by rintro ⟨u, v⟩; linarith), if_pos (And.intro hlo hhi)]
    · simp only [calculate_aqi_from_pm25, breakpoints, aqi_loop, band_interp] at hlo hhi ⊢
      rw [if_neg (by rintro ⟨u, v⟩; linarith), if_neg (by rintro ⟨u, v⟩; linarith),
        if_neg (by rintro ⟨u, v⟩; linarith), if_neg (by rintro ⟨u, v⟩; linarith),
        if_pos (And.intro hlo hhi)]
    · simp only [calculate_aqi_from_pm25, breakpoints, aqi_loop, band_interp] at hlo hhi ⊢
      rw [if_neg (by rintro ⟨u, v⟩; linarith), if_neg (by rintro ⟨u, v⟩; linarith),
        if_neg (by rintro ⟨u, v⟩; linarith), if_neg (by rintro ⟨u, v⟩; linarith),
        if_neg (by rintro ⟨u, v⟩; linarith), if_pos (And.intro hlo hhi)]
  · intro pm25 h
    show aqi_loop pm25 breakpoints = 500
    apply aqi_loop_no_match
    intro b hb
    fin_cases hb <;> (rintro ⟨u, v⟩; dsimp only at u v; linarith)

/-- Witness for C3: the band equation instantiated at `pm25 = 45` in band
`(31, 60, 51, 100)`, and the clip at `pm25 = 501`. -/
theorem aqi_piecewise_linear_witness :
    calculate_aqi_from_pm25 45 = band_interp ⟨31, 60, 51, 100⟩ 45 ∧
    calculate_aqi_from_pm25 501 = 500 :=
  ⟨aqi_piecewise_linear.1 45 ⟨31, 60, 51, 100⟩ (List.Mem.tail _ (List.Mem.head _))
      (by norm_num) (by norm_num),
   aqi_piecewise_linear.2.2 501 (by norm_num)⟩

/-- C10: every pm25 strictly inside a gap between adjacent breakpoint
bands (30–31, 60–61, 90–91, 120–121, 250–251), and every negative pm25,
matches no band, so `calculate_aqi_from_pm25` falls through to 500. -/
theorem aqi_gaps_give_500 (pm25 : ℚ)
    (h : (30 < pm25 ∧ pm25 < 31) ∨ (60 < pm25 ∧ pm25 < 61) ∨
         (90 < pm25 ∧ pm25 < 91) ∨ (120 < pm25 ∧ pm25 < 121) ∨
         (250 < pm25 ∧ pm25 < 251) ∨ pm25 < 0) :
    calculate_aqi_from_pm25 pm25 = 500 := by
  show aqi_loop pm25 breakpoints = 500
  apply aqi_loop_no_match
  intro b hb
  fin_cases hb <;>
    (rintro ⟨u, v⟩; dsimp only at u v;
     rcases h with ⟨a1, a2⟩ | ⟨a1, a2⟩ | ⟨a1, a2⟩ | ⟨a1, a2⟩ | ⟨a1, a2⟩ | a1 <;> linarith)

/-- Witness for C10: evaluated at the inter-band value 30.5 and at -1. -/
theorem aqi_gaps_give_500_witness :
    calculate_aqi_from_pm25 30.5 = 500 ∧ calculate_aqi_from_pm25 (-1) = 500 :=
  ⟨aqi_gaps_give_500 30.5 (Or.inl ⟨by norm_num, by norm_num⟩),
   aqi_gaps_give_500 (-1) (by norm_num)⟩

/-- C6: range invariants of the derived metrics —
`estimate_pm25_from_aod ∈ [0, 500]` for all inputs,
`calculate_aqi_from_pm25 ∈ [0, 500]` for every nonnegative pm25, and
`calculate_flood_risk_score ∈ [0, 100]` for all inputs (optional
arguments present or absent). -/
theorem derived_metric_ranges :
    (∀ aod_550nm humidity : ℚ,
       0 ≤ estimate_pm25_from_aod aod_550nm humidity ∧
       estimate_pm25_from_aod aod_550nm humidity ≤ 500) ∧
    (∀ pm25 : ℚ, 0 ≤ pm25 →
       0 ≤ calculate_aqi_from_pm25 pm25 ∧ calculate_aqi_from_pm25 pm25 ≤ 500) ∧
    (∀ (soil_moisture : ℚ) (precipitation ndwi : Option ℚ),
       0 ≤ calculate_flood_risk_score soil_moisture precipitation ndwi ∧
       calculate_flood_risk_score soil_moisture precipitation ndwi ≤ 100) := by
  refine ⟨?_, ?_, ?_⟩
  · intro aod humidity
    simp only [estimate_pm25_from_aod, np_clip]
    exact ⟨le_min (by norm_num) (le_max_left _ _), min_le_left _ _⟩
  · intro pm25 h
    simp only [calculate_aqi_from_pm25, breakpoints, aqi_loop, band_interp]
    split_ifs with h1 h2 h3 h4 h5 h6
    · exact ⟨by linarith [h1.1, h1.2], by linarith [h1.1, h1.2]⟩
    · exact ⟨by linarith [h2.1, h2.2], by linarith [h2.1, h2.2]⟩
    · exact ⟨by linarith [h3.1, h3.2], by linarith [h3.1, h3.2]⟩
    · exact ⟨by linarith [h4.1, h4.2], by linarith [h4.1, h4.2]⟩
    · exact ⟨by linarith [h5.1, h5.2], by linarith [h5.1, h5.2]⟩
    · exact ⟨by linarith [h6.1, h6.2], by linarith [h6.1, h6.2]⟩
    · exact ⟨by norm_num, by norm_num⟩
  · intro sm p n
    rcases p with _ | p <;> rcases n with _ | n <;>
      (simp only [calculate_flood_risk_score]; split_ifs <;> constructor <;> norm_num)

/-- Witness for C6: the AQI range fact instantiated at `pm25 = 45`. -/
theorem derived_metric_ranges_witness :
    0 ≤ calculate_aqi_from_pm25 45 ∧ calculate_aqi_from_pm25 45 ≤ 500 :=
  derived_metric_ranges.2.1 45 (by norm_num)

/-- C5: `calculate_flood_risk_score` is monotonically non-decreasing in
soil moisture, precipitation and NDWI separately (the other two held
fixed, optional arguments present), and at
`(0.45, 60, 0.35)` it evaluates to `40 + 30 + 30 = 100`, which
`get_flood_risk_category` maps to "Extreme Risk". -/
theorem flood_risk_monotone_extreme :
    (∀ x y p n : ℚ, x ≤ y →
       calculate_flood_risk_score x (some p) (some n) ≤
       calculate_flood_risk_score y (some p) (some n)) ∧
    (∀ s p q n : ℚ, p ≤ q →
       calculate_flood_risk_score s (some p) (some n) ≤
       calculate_flood_risk_score s (some q) (some n)) ∧
    (∀ s p n m : ℚ, n ≤ m →
       calculate_flood_risk_score s (some p) (some n) ≤
       calculate_flood_risk_score s (some p) (some m)) ∧
    calculate_flood_risk_score 0.45 (some 60) (some 0.35) = 100 ∧
    get_flood_risk_category (calculate_flood_risk_score 0.45 (some 60) (some 0.35)) =
      "Extreme Risk" := by
  refine ⟨?_, ?_, ?_, by norm_num [calculate_flood_risk_score],
    by norm_num [calculate_flood_risk_score, get_flood_risk_category]⟩
  · intro x y p n h
    simp only [calculate_flood_risk_score]
    refine min_le_min (add_le_add (add_le_add ?_ le_rfl) le_rfl) le_rfl
    split_ifs <;> linarith
  · intro s p q n h
    simp only [calculate_flood_risk_score]
    refine min_le_min (add_le_add (add_le_add le_rfl ?_) le_rfl) le_rfl
    split_ifs <;> linarith
  · intro s p n m h
    simp only [calculate_flood_risk_score]
    refine min_le_min (add_le_add le_rfl ?_) le_rfl
    split_ifs <;> linarith

/-- Witness for C5: each monotonicity component instantiated across a
threshold (0.25→0.45 soil, 20→60 precipitation, 0→0.35 NDWI). -/
theorem flood_risk_monotone_extreme_witness :
    calculate_flood_risk_score 0.25 (some 20) (some 0) ≤
      calculate_flood_risk_score 0.45 (some 20) (some 0) ∧
    calculate_flood_risk_score 0.25 (some 20) (some 0) ≤
      calculate_flood_risk_score 0.25 (some 60) (some 0) ∧
    calculate_flood_risk_score 0.25 (some 20) (some 0) ≤
      calculate_flood_risk_score 0.25 (some 20) (some 0.35) :=
  ⟨flood_risk_monotone_extreme.1 0.25 0.45 20 0 (by norm_num),
   flood_risk_monotone_extreme.2.1 0.25 20 60 0 (by norm_num),
   flood_risk_monotone_extreme.2.2.1 0.25 20 0 0.35 (by norm_num)⟩

/-- C4 counterexample: at `heat_index(30 °C, 50 %)` the Fahrenheit
temperature is 86, the simple formula gives 86.65, which is **not**
below 80, so `calculate_heat_index` takes the Rothfusz branch — the
claim's "takes the simplified branch" is false. -/
theorem heat_index_30_50_not_simple_branch :
    simple_hi (c_to_f 30) 50 = 86.65 ∧
    ¬ simple_hi (c_to_f 30) 50 < 80 ∧
    calculate_heat_index (c_to_f 30) 50 = rothfusz_hi (c_to_f 30) 50 ∧
    calculate_heat_index (c_to_f 30) 50 ≠ simple_hi (c_to_f 30) 50 := by
  have h1 : simple_hi (c_to_f 30) 50 = 86.65 := by norm_num [simple_hi, c_to_f]
  have h2 : ¬ simple_hi (c_to_f 30) 50 < 80 := by rw [h1]; norm_num
  have h3 : calculate_heat_index (c_to_f 30) 50 = rothfusz_hi (c_to_f 30) 50 := by
    rw [calculate_heat_index, if_neg h2]
  refine ⟨h1, h2, h3, ?_⟩
  rw [h3, h1]
  norm_num [rothfusz_hi, c_to_f]

/-- C4 (amended): the heat index returns `simple_hi` exactly when
`simple_hi < 80` and the Rothfusz polynomial otherwise; `(30 °C, 50 %)`
takes the Rothfusz branch (not the simplified one, since the simple value
is 86.65 ≥ 80); `(35 °C, 80 %)` takes the Rothfusz branch and evaluates
to exactly 133.7839687 °F ≈ 133.8 °F, i.e. ≈ 56.5 °C. -/
theorem heat_index_branch_spec :
    (∀ temp_f humidity : ℚ, simple_hi temp_f humidity < 80 →
       calculate_heat_index temp_f humidity = simple_hi temp_f humidity) ∧
    (∀ temp_f humidity : ℚ, ¬ simple_hi temp_f humidity < 80 →
       calculate_heat_index temp_f humidity = rothfusz_hi temp_f humidity) ∧
    ¬ simple_hi (c_to_f 30) 50 < 80 ∧
    ¬ simple_hi (c_to_f 35) 80 < 80 ∧
    calculate_heat_index (c_to_f 35) 80 = 133.7839687 ∧
    (133.7 < calculate_heat_index (c_to_f 35) 80 ∧
      calculate_heat_index (c_to_f 35) 80 < 133.9) ∧
    (56.54 < heat_index_c 35 80 ∧ heat_index_c 35 80 < 56.55) := by
  have hb35 : ¬ simple_hi (c_to_f 35) 80 < 80 := by norm_num [simple_hi, c_to_f]
  have key : calculate_heat_index (c_to_f 35) 80 = 133.7839687 := by
    rw [calculate_heat_index, if_neg hb35]
    norm_num [rothfusz_hi, c_to_f]
  refine ⟨fun t h hs => by rw [calculate_heat_index, if_pos hs],
    fun t h hs => by rw [calculate_heat_index, if_neg hs],
    by norm_num [simple_hi, c_to_f], hb35, key, by rw [key]; norm_num, ?_⟩
  rw [heat_index_c, key, f_to_c]
  norm_num

/-- Witness for C4: the branch equations instantiated at 70 °F / 50 %
(simple value 69.05 < 80) and at 95 °F / 80 % (simple value 97.96 ≥ 80). -/
theorem heat_index_branch_spec_witness :
    calculate_heat_index 70 50 = simple_hi 70 50 ∧
    calculate_heat_index 95 80 = rothfusz_hi 95 80 :=
  ⟨heat_index_branch_spec.1 70 50 (by norm_num [simple_hi]),
   heat_index_branch_spec.2.1 95 80 (by norm_num [simple_hi])⟩

/-- C2 counterexample: `+inf` is an infinite value, yet
`_clean_nasa_data` leaves it in place (its test is
`v == -999 or v == -9999 or v < -900 or pd.isna(v)`, and none of those
fire on `+inf`), so an infinite `T2M` is not replaced by the 28.5
default. -/
theorem clean_inf_not_replaced :
    clean_value "T2M" Val.inf = Val.inf ∧
    clean_nasa_data [("T2M", Val.inf)] = [("T2M", Val.inf)] ∧
    Val.inf ≠ Val.num 28.5 :=
  ⟨rfl, rfl, by simp⟩

/-- Each documented default value is itself non-sentinel. -/
lemma replacement_defaults_clean :
    ∀ p ∈ replacements, is_nasa_missing (Val.num p.2) = false := by
  intro p hp
  fin_cases hp <;>
    simp [is_nasa_missing, Val.eqNum, Val.lt, pd_isna] <;> norm_num

/-- The default substituted for any key passes the missing-data test. -/
lemma replacement_for_clean (key : String) :
    is_nasa_missing (Val.num (replacement_for key)) = false := by
  unfold replacement_for
  cases hf : replacements.find? (fun p => p.1 == key) with
  | none =>
    norm_num [is_nasa_missing, Val.eqNum, Val.lt, pd_isna]
  | some p => exact replacement_defaults_clean p (List.mem_of_find?_eq_some hf)

/-- C2 (amended): `_clean_nasa_data` replaces every NaN, `-999`, `-9999`
and `< -900` value (which covers `-inf`) with the documented per-field
default — 28.5 for `T2M`, 0.0 for an undocumented field — leaves every
other value (including `+inf`) unchanged, and the returned record never
contains a NaN, `-999`, `-9999`, or `< -900` value. -/
theorem clean_nasa_data_spec :
    (∀ (key : String) (v : Val), is_nasa_missing v = true →
       clean_value key v = Val.num (replacement_for key)) ∧
    (∀ (key : String) (v : Val), is_nasa_missing v = false → clean_value key v = v) ∧
    (∀ (data : List (String × Val)) (p : String × Val),
       p ∈ clean_nasa_data data → is_nasa_missing p.2 = false) ∧
    clean_value "T2M" (Val.num (-999)) = Val.num 28.5 ∧
    clean_value "T2M" Val.nan = Val.num 28.5 ∧
    clean_value "T2M" Val.ninf = Val.num 28.5 ∧
    clean_value "some_unknown_field" (Val.num (-9999)) = Val.num 0.0 := by
  refine ⟨fun key v h => by rw [clean_value, if_pos h],
    fun key v h => by rw [clean_value, if_neg (by simp [h])], ?_, rfl, rfl, rfl, rfl⟩
  intro data p hp
  obtain ⟨⟨k, v⟩, hmem, rfl⟩ := List.mem_map.mp hp
  by_cases h : is_nasa_missing v = true
  · show is_nasa_missing (clean_value k v) = false
    rw [clean_value, if_pos h]
    exact replacement_for_clean k
  · show is_nasa_missing (clean_value k v) = false
    rw [clean_value, if_neg (by simp [Bool.not_eq_true] at h ⊢; exact h)]
    simpa using h

/-- Witness for C2: the replacement equations instantiated at a NaN
`RH2M` reading and an already-clean `T2M` reading. -/
theorem clean_nasa_data_spec_witness :
    clean_value "RH2M" Val.nan = Val.num (replacement_for "RH2M") ∧
    clean_value "T2M" (Val.num 31) = Val.num 31 :=
  ⟨clean_nasa_data_spec.1 "RH2M" Val.nan rfl,
   clean_nasa_data_spec.2.1 "T2M" (Val.num 31) rfl⟩

/-- C1 counterexample: an input mapping covering only one of the two
schema features — wrong dimensionality — is not rejected: no
`FeatureMismatchError` exists anywhere in the code, `_prepare_features`
silently zero-pads the vector to `[30, 0]`, and `detect_anomalies`
returns an ordinary result. -/
theorem detect_anomalies_zero_pads :
    prepare_features ["T2M", "RH2M"] [("T2M", 30)] = [30, 0] ∧
    detect_anomalies ["T2M", "RH2M"] id (Detector.mk (fun _ => 1) none)
        [("T2M", 30)] =
      AnomalyResult.mk false 0.5 "Medium" := by
  constructor
  · rfl
  · rw [detect_anomalies]
    norm_num [severity_bucket, AnomalyResult.mk.injEq]

/-- A key that is not in the dict looks up to the supplied default. -/
lemma dict_get_of_not_has (data : List (String × ℚ)) (key : String) (d : ℚ)
    (h : dict_has data key = false) : dict_get data key d = d := by
  unfold dict_get
  cases hf : data.find? (fun p => p.1 == key) with
  | none => rfl
  | some p => rw [dict_has, hf] at h; simp at h

/-- C1 (amended): anomaly inference never rejects a mis-sized feature
mapping — `_prepare_features` always builds a vector of exactly the
schema's length, silently substituting 0 for every absent feature, and
`detect_anomalies` returns an ordinary severity-bucketed result for every
input (the source has no `FeatureMismatchError` at all). -/
theorem prepare_features_zero_fill_spec :
    (∀ (feature_names : List String) (data : List (String × ℚ)),
       (prepare_features feature_names data).length = feature_names.length) ∧
    (∀ (data : List (String × ℚ)) (f : String),
       dict_has data f = false → dict_get data f 0 = 0) ∧
    (∀ (feature_names : List String) (data : List (String × ℚ)) (i : ℕ)
       (hi : i < feature_names.length),
       dict_has data (feature_names.get ⟨i, hi⟩) = false →
       (prepare_features feature_names data).get
         ⟨i, by simpa [prepare_features] using hi⟩ = 0) ∧
    (∀ (feature_names : List String) (scaler : List ℚ → List ℚ) (det : Detector)
       (data : List (String × ℚ)),
       (detect_anomalies feature_names scaler det data).severity ∈
         (["Low", "Medium", "High"] : List String)) := by
  refine ⟨fun names data => by simp [prepare_features],
    fun data f h => dict_get_of_not_has data f 0 h, ?_, ?_⟩
  · intro names data i hi h
    simp only [prepare_features, List.get_eq_getElem, List.getElem_map]
    exact dict_get_of_not_has data _ 0 (by simpa using h)
  · intro names scaler det data
    show severity_bucket _ ∈ _
    unfold severity_bucket
    split_ifs <;> simp

/-- Witness for C1: the zero-fill equations instantiated at a schema of
two features with only `T2M` supplied. -/
theorem prepare_features_zero_fill_spec_witness :
    dict_get [("T2M", (30 : ℚ))] "RH2M" 0 = 0 ∧
    (prepare_features ["T2M", "RH2M"] [("T2M", 30)]).get
      ⟨1, by simp [prepare_features]⟩ = 0 :=
  ⟨prepare_features_zero_fill_spec.2.1 [("T2M", 30)] "RH2M" rfl,
   prepare_features_zero_fill_spec.2.2.1 ["T2M", "RH2M"] [("T2M", 30)] 1
     (by norm_num) rfl⟩

/-- C7: the selection of `evaluate_models` — Python's
`max(results.keys(), key=lambda x: results[x]['f1_score'])` over the
insertion-ordered dict — returns a detector whose F1 is at least every
other detector's F1, and is the *first* entry of the priority order
`isolation_forest, one_class_svm, dbscan` attaining that maximum, so ties
go to the earlier detector. -/
theorem select_best_model_spec (f1_iso f1_svm f1_db : ℚ) :
    f1_iso ≤ (select_best_model f1_iso f1_svm f1_db).2 ∧
    f1_svm ≤ (select_best_model f1_iso f1_svm f1_db).2 ∧
    f1_db ≤ (select_best_model f1_iso f1_svm f1_db).2 ∧
    [("isolation_forest", f1_iso), ("one_class_svm", f1_svm), ("dbscan", f1_db)].find?
        (fun p => decide (p.2 = (select_best_model f1_iso f1_svm f1_db).2)) =
      some (select_best_model f1_iso f1_svm f1_db) := by
  unfold select_best_model py_max_step
  split_ifs with h1 h2 h3
  · refine ⟨by linarith, by linarith, by linarith, ?_⟩
    rw [List.find?_cons_of_neg _ (by simpa using ne_of_lt (lt_trans h1 h2)),
      List.find?_cons_of_neg _ (by simpa using ne_of_lt h2),
      List.find?_cons_of_pos _ (by simp)]
  · refine ⟨by linarith, by linarith, by linarith, ?_⟩
    rw [List.find?_cons_of_neg _ (by simpa using ne_of_lt h1),
      List.find?_cons_of_pos _ (by simp)]
  · refine ⟨by linarith, by linarith, by linarith, ?_⟩
    rw [List.find?_cons_of_neg _ (by simpa using ne_of_lt h3),
      List.find?_cons_of_neg _
        (by simpa using ne_of_lt (lt_of_le_of_lt (le_of_not_lt h1) h3)),
      List.find?_cons_of_pos _ (by simp)]
  · refine ⟨by linarith, by linarith, by linarith, ?_⟩
    rw [List.find?_cons_of_pos _ (by simp)]

/-- C8 counterexample: when a single detector's `fit` raises (here the
isolation forest) while the other two would fit fine, `train_models`
aborts immediately with that detector's own exception — the detector is
not excluded, the evaluation of the rest never happens, and the error is
not a `DataIntegrityError` (no such class exists in the code). -/
theorem train_models_one_failure_aborts :
    train_models (α := ℕ) (Except.error "ValueError: degenerate data")
        (Except.ok (1 : ℕ)) (Except.ok (2 : ℕ)) =
      Except.error "ValueError: degenerate data" ∧
    ("ValueError: degenerate data" : String) ≠ "DataIntegrityError" :=
  ⟨rfl, by decide⟩

/-- C8 (amended): `train_models` runs the three fits sequentially with no
exception handling: it succeeds exactly when all three fits succeed, and
the first fit failure aborts the whole method with that failure's own
exception (so training fails as soon as *any* detector fails, not only
when all three do, and no `DataIntegrityError` is ever produced). -/
theorem train_models_propagates {α β γ : Type} :
    (∀ (a : Except String α) (b : Except String β) (c : Except String γ)
       (x : α) (y : β) (z : γ),
       train_models a b c = Except.ok (x, y, z) ↔
         a = Except.ok x ∧ b = Except.ok y ∧ c = Except.ok z) ∧
    (∀ (e : String) (b : Except String β) (c : Except String γ),
       train_models (α := α) (Except.error e) b c = Except.error e) ∧
    (∀ (x : α) (e : String) (c : Except String γ),
       train_models (β := β) (Except.ok x) (Except.error e) c = Except.error e) ∧
    (∀ (x : α) (y : β) (e : String),
       train_models (γ := γ) (Except.ok x) (Except.ok y) (Except.error e) =
         Except.error e) := by
  refine ⟨?_, fun e b c => rfl, fun x e c => rfl, fun x y e => rfl⟩
  intro a b c x y z
  cases a <;> cases b <;> cases c <;> simp [train_models]

/-- Witness for C8: the success characterisation instantiated at three
successful fits. -/
theorem train_models_propagates_witness :
    train_models (Except.ok (1 : ℕ)) (Except.ok (2 : ℕ)) (Except.ok (3 : ℕ)) =
      Except.ok (1, 2, 3) :=
  (train_models_propagates.1 _ _ _ 1 2 3).mpr ⟨rfl, rfl, rfl⟩

/-- Membership characterisation for the anomalous-row scan of
`detect_comprehensive_anomalies`. -/
lemma zip_map_any_iff (l : List (List (String × ℚ)))
    (g : List (String × ℚ) → AnomalyResult) (param : String) :
    ((l.zip (l.map g)).any fun x => x.2.is_anomaly && dict_has x.1 param) = true ↔
      ∃ d ∈ l, (g d).is_anomaly = true ∧ dict_has d param = true := by
  induction l with
  | nil => simp
  | cons d rest ih =>
    simp only [List.map_cons, List.zip_cons_cons, List.any_cons, Bool.or_eq_true,
      Bool.and_eq_true, ih, List.mem_cons]
    constructor
    · rintro (⟨ha, hb⟩ | ⟨x, hx, hax⟩)
      · exact ⟨d, Or.inl rfl, ha, hb⟩
      · exact ⟨x, Or.inr hx, hax⟩
    · rintro ⟨x, rfl | hx, hax⟩
      · exact Or.inl hax
      · exact Or.inr ⟨x, hx, hax⟩

/-- C9: the anomaly score is `abs` of the detector's own decision
function when it exposes one and the fixed constant 0.5 otherwise;
severity is "High" exactly above 0.7, "Medium" exactly in (0.3, 0.7],
"Low" otherwise; the batch variant applies the same bucketing to the mean
score over all rows, and its affected parameters are exactly the
watch-listed names (`aqi_estimated`, `flood_risk_score`, `T2M`, `RH2M`)
present in some anomalous row. -/
theorem anomaly_score_severity_spec :
    (∀ (feature_names : List String) (scaler : List ℚ → List ℚ) (det : Detector)
       (data : List (String × ℚ)) (f : List ℚ → ℚ),
       det.decision_function = some f →
       (detect_anomalies feature_names scaler det data).anomaly_score =
         |f (scaler (prepare_features feature_names data))|) ∧
    (∀ (feature_names : List String) (scaler : List ℚ → List ℚ) (det : Detector)
       (data : List (String × ℚ)),
       det.decision_function = none →
       (detect_anomalies feature_names scaler det data).anomaly_score = 0.5) ∧
    (∀ s : ℚ,
       (severity_bucket s = "High" ↔ 0.7 < s) ∧
       (severity_bucket s = "Medium" ↔ 0.3 < s ∧ s ≤ 0.7) ∧
       (severity_bucket s = "Low" ↔ s ≤ 0.3)) ∧
    (∀ (feature_names : List String) (scaler : List ℚ → List ℚ) (det : Detector)
       (data : List (String × ℚ)),
       (detect_anomalies feature_names scaler det data).severity =
         severity_bucket (detect_anomalies feature_names scaler det data).anomaly_score) ∧
    (∀ (feature_names : List String) (scaler : List ℚ → List ℚ) (det : Detector)
       (data_list : List (List (String × ℚ))), data_list ≠ [] →
       (detect_comprehensive_anomalies feature_names scaler det data_list).overall_score =
         mean ((data_list.map (detect_anomalies feature_names scaler det)).map
           fun r => r.anomaly_score) ∧
       (detect_comprehensive_anomalies feature_names scaler det data_list).severity =
         severity_bucket
           (detect_comprehensive_anomalies feature_names scaler det
             data_list).overall_score) ∧
    (∀ (feature_names : List String) (scaler : List ℚ → List ℚ) (det : Detector)
       (data_list : List (List (String × ℚ))) (param : String),
       param ∈ (detect_comprehensive_anomalies feature_names scaler det
           data_list).affected_parameters ↔
         param ∈ watch_list ∧ ∃ d ∈ data_list,
           (detect_anomalies feature_names scaler det d).is_anomaly = true ∧
           dict_has d param = true) := by
  refine ⟨?_, ?_, ?_, fun _ _ _ _ => rfl, ?_, ?_⟩
  · intro names scaler det data f h
    simp [detect_anomalies, h]
  · intro names scaler det data h
    simp [detect_anomalies, h]
  · intro s
    unfold severity_bucket
    split_ifs with h1 h2
    · refine ⟨⟨fun _ => h1, fun _ => rfl⟩, ⟨?_, ?_⟩, ⟨?_, ?_⟩⟩
      · intro he; exact absurd he (by decide)
      · rintro ⟨-, hle⟩; exact absurd h1 (not_lt.mpr hle)
      · intro he; exact absurd he (by decide)
      · intro hle; exfalso; linarith
    · refine ⟨⟨?_, ?_⟩, ⟨fun _ => ⟨h2, not_lt.mp h1⟩, fun _ => rfl⟩, ⟨?_, ?_⟩⟩
      · intro he; exact absurd he (by decide)
      · intro hgt; exact absurd hgt h1
      · intro he; exact absurd he (by decide)
      · intro hle; exfalso; linarith
    · refine ⟨⟨?_, ?_⟩, ⟨?_, ?_⟩, ⟨fun _ => not_lt.mp h2, fun _ => rfl⟩⟩
      · intro he; exact absurd he (by decide)
      · intro hgt; exact absurd hgt h1
      · intro he; exact absurd he (by decide)
      · rintro ⟨hgt, -⟩; exact absurd hgt h2
  · intro names scaler det data_list h
    have hne : ¬ ((data_list.map (detect_anomalies names scaler det)).map
        (fun r => r.anomaly_score)).isEmpty = true := by
      simp [List.isEmpty_iff, h]
    constructor
    · simp only [detect_comprehensive_anomalies]
      rw [if_neg hne]
    · simp only [detect_comprehensive_anomalies]
      rw [if_neg hne]
  · intro names scaler det data_list param
    simp only [detect_comprehensive_anomalies, List.mem_filter]
    rw [zip_map_any_iff]

/-- Witness for C9: the constant-0.5 fallback, the decision-function
score, and the batch mean instantiated on concrete detectors and rows. -/
theorem anomaly_score_severity_spec_witness :
    (detect_anomalies ["T2M"] id (Detector.mk (fun _ => 1) none) []).anomaly_score =
      0.5 ∧
    (detect_anomalies ["T2M"] id
        (Detector.mk (fun _ => 1) (some fun _ => 2)) []).anomaly_score =
      |(fun _ : List ℚ => (2 : ℚ)) (id (prepare_features ["T2M"] []))| ∧
    (detect_comprehensive_anomalies ["T2M"] id (Detector.mk (fun _ => 1) none)
        [[("T2M", 3)]]).overall_score =
      mean (([[("T2M", 3)]].map
          (detect_anomalies ["T2M"] id (Detector.mk (fun _ => 1) none))).map
        fun r => r.anomaly_score) :=
  ⟨anomaly_score_severity_spec.2.1 ["T2M"] id (Detector.mk (fun _ => 1) none) [] rfl,
   anomaly_score_severity_spec.1 ["T2M"] id
     (Detector.mk (fun _ => 1) (some fun _ => 2)) [] (fun _ => 2) rfl,
   (anomaly_score_severity_spec.2.2.2.2.1 ["T2M"] id (Detector.mk (fun _ => 1) none)
     [[("T2M", 3)]] (by simp)).1⟩

end HealthyCities
